import Mathlib

/-
  Shallow embedding of the real-time device monitoring and alerting state
  machine of the baby-posture-analysis service:
  - app/services/device_state.py   (DeviceState and its methods)
  - app/services/websocket_service.py (the per-connection processing loop)

  Timestamps are JSON values that the service stores verbatim and later feeds
  to datetime.fromisoformat; we model them by their observable behaviour:
  a number (fromisoformat raises TypeError), a string in ISO format carrying
  its parsed time in whole seconds, a non-empty non-ISO string (ValueError),
  or the empty string (falsy, also ValueError).  Python int thresholds and
  counts are modelled as Int; the float comparison
  count >= threshold * 80 / 100 is modelled by the exact rational comparison
  100 * count >= 80 * threshold, which agrees with the float computation for
  all machine-int inputs since 80 * t / 100 rounds to a value on the same
  side of every integer as the exact quotient.
-/

namespace BabyMonitor

/-- A JSON timestamp value as received and stored by the service. -/
inductive TS where
  | num (n : Int)
  | iso (t : Int)
  | badStr
  | emptyStr
deriving DecidableEq, Repr

/-- Python truthiness of a stored timestamp value: 0 and the empty string are falsy. -/
def TS.falsy : TS → Bool
  | .num n => n == 0
  | .emptyStr => true
  | _ => false

/-- Behaviour of datetime.fromisoformat on a stored timestamp value. -/
def fromisoformat : TS → Except String Int
  | .num _ => .error "TypeError"
  | .iso t => .ok t
  | .badStr => .error "ValueError"
  | .emptyStr => .error "ValueError"

/-- DeviceState.calc_time: seconds between two stored timestamps; 0 when either
is None, otherwise both are parsed with datetime.fromisoformat (which may raise). -/
def calc_time (start_time end_time : Option TS) : Except String Int :=
  match start_time, end_time with
  | none, _ => .ok 0
  | _, none => .ok 0
  | some s, some e => do
    let s' ← fromisoformat s
    let e' ← fromisoformat e
    pure (e' - s')

/-- The position_baby dict of DeviceState. -/
structure PositionRun where
  position : String
  count : Int
  first_time : Option TS
  last_time : Option TS
deriving DecidableEq, Repr

/-- The blanket_baby dict of DeviceState. -/
structure BlanketRun where
  is_covered : Bool
  count : Int
  first_time : Option TS
  last_time : Option TS
deriving DecidableEq, Repr

/-- The last_notification_time dict, with its three fixed keys. -/
structure LastNotif where
  noBlanket : Option TS
  side : Option TS
  prone : Option TS
deriving DecidableEq, Repr

/-- Dictionary read last_notification_time[k] for the keys the loop uses. -/
def LastNotif.get (m : LastNotif) (k : String) : Option TS :=
  if k = "noBlanket" then m.noBlanket
  else if k = "side" then m.side
  else if k = "prone" then m.prone
  else none

/-- Dictionary write last_notification_time[k] = v for the keys the loop uses. -/
def LastNotif.set (m : LastNotif) (k : String) (v : TS) : LastNotif :=
  if k = "noBlanket" then { m with noBlanket := some v }
  else if k = "side" then { m with side := some v }
  else if k = "prone" then { m with prone := some v }
  else m

/-- One entry of posture_history. -/
structure HistEntry where
  posture : String
  has_blanket : Bool
  timestamp : TS
deriving DecidableEq, Repr

/-- The mutable per-device state held by a DeviceState instance. -/
structure DeviceState where
  side_threshold : Int
  prone_threshold : Int
  no_blanket_threshold : Int
  max_history : Nat
  position_baby : PositionRun
  blanket_baby : BlanketRun
  posture_history : List HistEntry
  last_notification_time : LastNotif
deriving DecidableEq, Repr

/-- Observable outputs of one loop iteration: websocket messages
(error, analysis, alert), Firestore events, and push notifications.
The cloudinary image url is an external artefact and is not modelled. -/
inductive Out where
  | wsError (message : String)
  | wsAnalysis (timestamp : TS) (posture : String) (has_blanket : Bool)
  | wsAlert (timestamp : TS) (message : String) (position : Option String)
  | fireEvent (label : String) (timestamp : TS)
  | notif (alert_type : String) (duration : Int) (timestamp : TS)
deriving DecidableEq, Repr

/-- The optional-field snapshot returned by get_device_thresholds or delivered
by the Firebase listener: a dict that may lack any of the three keys. -/
structure ThSnapshot where
  sideThreshold : Option Int
  proneThreshold : Option Int
  noBlanketThreshold : Option Int
deriving DecidableEq, Repr

/-- DeviceState.update_thresholds_from_snapshot: each threshold field is
replaced by the snapshot value when present, otherwise kept. -/
def update_thresholds_from_snapshot (s : DeviceState) (new_thresholds : ThSnapshot) : DeviceState :=
  { s with
    side_threshold := new_thresholds.sideThreshold.getD s.side_threshold
    prone_threshold := new_thresholds.proneThreshold.getD s.prone_threshold
    no_blanket_threshold := new_thresholds.noBlanketThreshold.getD s.no_blanket_threshold }

/-- DeviceState.update_position_baby: same position increments the streak and
moves last_time; a different position replaces the run and emits a Firestore event. -/
def update_position_baby (s : DeviceState) (position : String) (timestamp : TS) :
    DeviceState × List Out :=
  if s.position_baby.position = position then
    ({ s with position_baby :=
        { s.position_baby with
          count := s.position_baby.count + 1
          last_time := some timestamp } }, [])
  else
    ({ s with position_baby :=
        { position := position, count := 1
          first_time := some timestamp, last_time := some timestamp } },
     [.fireEvent position timestamp])

/-- DeviceState.update_blanket_baby: same coverage increments the streak and
moves last_time; a change replaces the run and emits a Firestore event. -/
def update_blanket_baby (s : DeviceState) (is_covered : Bool) (timestamp : TS) :
    DeviceState × List Out :=
  if s.blanket_baby.is_covered = is_covered then
    ({ s with blanket_baby :=
        { s.blanket_baby with
          count := s.blanket_baby.count + 1
          last_time := some timestamp } }, [])
  else
    ({ s with blanket_baby :=
        { is_covered := is_covered, count := 1
          first_time := some timestamp, last_time := some timestamp } },
     [.fireEvent (if is_covered = false then "noblanket" else "blanket") timestamp])

/-- DeviceState.check_position_baby.  The Python and-chain short-circuits, so
calc_time (which may raise) is only evaluated once the count guard passes and
last_time is set.  There is no zero-threshold early return in this method. -/
def check_position_baby (s : DeviceState) : Except String Bool :=
  if s.position_baby.position = "side" then
    if 80 * s.side_threshold ≤ 100 * s.position_baby.count ∧ s.position_baby.last_time ≠ none then do
      let d ← calc_time s.position_baby.first_time s.position_baby.last_time
      pure (decide (s.side_threshold ≤ d))
    else .ok false
  else if s.position_baby.position = "prone" then
    if 80 * s.prone_threshold ≤ 100 * s.position_baby.count ∧ s.position_baby.last_time ≠ none then do
      let d ← calc_time s.position_baby.first_time s.position_baby.last_time
      pure (decide (s.prone_threshold ≤ d))
    else .ok false
  else .ok false

/-- DeviceState.check_blanket_baby: unlike the position check, this one starts
with an explicit zero-threshold early return. -/
def check_blanket_baby (s : DeviceState) : Except String Bool :=
  if s.no_blanket_threshold = 0 then .ok false
  else if s.blanket_baby.is_covered = false then
    if 80 * s.no_blanket_threshold ≤ 100 * s.blanket_baby.count ∧ s.blanket_baby.last_time ≠ none then do
      let d ← calc_time s.blanket_baby.first_time s.blanket_baby.last_time
      pure (decide (s.no_blanket_threshold ≤ d))
    else .ok false
  else .ok false

/-! The per-connection processing loop of WebSocketHandler.handle_connection,
one iteration per inbound frame.  External collaborators (classifier result,
threshold fetches) are inputs; their outputs are observed verbatim. -/

/-- The literal posture_map dict lookup with default value "unknown". -/
def posture_map (raw : String) : String :=
  if raw = "Nằm ngửa" then "back"
  else if raw = "Nằm sấp" then "prone"
  else if raw = "Nằm nghiêng" then "side"
  else "unknown"

/-- Coverage coercion of the loop: a missing or non-boolean is_covered value
defaults to True. -/
def coerce_blanket (blanket_data : Option (Option Bool)) : Bool :=
  match blanket_data with
  | none => true
  | some none => true
  | some (some b) => b

/-- History append, FIFO eviction beyond max_history, and the warm-up or
debounced run updates (loop lines 165 to 198): while the buffer is short every
frame is applied; once full, a label is applied only when it occurs at least 3
times in the updated buffer. -/
def observe_frame (s : DeviceState) (posture : String) (has_blanket : Bool) (timestamp : TS) :
    DeviceState × List Out :=
  let h1 := s.posture_history ++ [⟨posture, has_blanket, timestamp⟩]
  let h2 := if h1.length > s.max_history then h1.drop 1 else h1
  let s0 : DeviceState := { s with posture_history := h2 }
  let step1 :=
    if h2.length < s.max_history then update_position_baby s0 posture timestamp
    else if 3 ≤ h2.countP (fun p => p.posture == posture) then
      update_position_baby s0 posture timestamp
    else (s0, [])
  let step2 :=
    if h2.length < s.max_history then update_blanket_baby step1.1 has_blanket timestamp
    else if 3 ≤ h2.countP (fun p => p.has_blanket == has_blanket) then
      update_blanket_baby step1.1 has_blanket timestamp
    else (step1.1, [])
  (step2.1, step1.2 ++ step2.2)

/-- Result of an alert section: the (possibly partially) updated state, the
outputs emitted so far, and the pending exception if one was raised (it is
caught at the loop boundary, after the mutations already made). -/
structure SectionRes where
  state : DeviceState
  outs : List Out
  err : Option String
deriving DecidableEq, Repr

/-- In-loop threshold refetch assignments: each field overwritten with the
fetched value, with literal defaults 10, 10 and 100. -/
def apply_fetched_thresholds (s : DeviceState) (t : ThSnapshot) : DeviceState :=
  { s with
    side_threshold := t.sideThreshold.getD 10
    prone_threshold := t.proneThreshold.getD 10
    no_blanket_threshold := t.noBlanketThreshold.getD 100 }

/-- Dispatch tail of the position alert branch: record the notification time,
then compute the run duration (calc_time may raise after the time was already
recorded), send the notification and the websocket alert. -/
def position_dispatch (s1 : DeviceState) (now_position : String) (timestamp : TS) : SectionRes :=
  let s2 : DeviceState :=
    { s1 with last_notification_time := s1.last_notification_time.set now_position timestamp }
  match calc_time s2.position_baby.first_time s2.position_baby.last_time with
  | .error e => ⟨s2, [], some e⟩
  | .ok dur =>
    ⟨s2, [.notif now_position dur timestamp,
          .wsAlert timestamp ("Position alert: " ++ now_position) (some now_position)], none⟩

/-- Position alert section (loop lines 200 to 281): if the check passes, the
thresholds are refetched and overwritten, the check is re-run, and dispatch
happens only when the re-check still passes, the per-label threshold is
nonzero, and the 20-second cooldown has elapsed. -/
def position_alert_section (s : DeviceState) (timestamp : TS) (fetched : ThSnapshot) : SectionRes :=
  match check_position_baby s with
  | .error e => ⟨s, [], some e⟩
  | .ok false => ⟨s, [], none⟩
  | .ok true =>
    let s1 := apply_fetched_thresholds s fetched
    match check_position_baby s1 with
    | .error e => ⟨s1, [], some e⟩
    | .ok false => ⟨s1, [], none⟩
    | .ok true =>
      let now_position := s1.position_baby.position
      let threshold :=
        if now_position = "side" then s1.side_threshold
        else if now_position = "prone" then s1.prone_threshold
        else (0 : Int)
      if threshold = 0 then ⟨s1, [], none⟩
      else
        match s1.last_notification_time.get now_position with
        | none => position_dispatch s1 now_position timestamp
        | some t_last =>
          match calc_time (some t_last) (some timestamp) with
          | .error e => ⟨s1, [], some e⟩
          | .ok d =>
            if 20 < d then position_dispatch s1 now_position timestamp
            else ⟨s1, [], none⟩

/-- Dispatch tail of the blanket alert branch. -/
def blanket_dispatch (s1 : DeviceState) (timestamp : TS) : SectionRes :=
  let s2 : DeviceState :=
    { s1 with last_notification_time := s1.last_notification_time.set "noBlanket" timestamp }
  match calc_time s2.blanket_baby.first_time s2.blanket_baby.last_time with
  | .error e => ⟨s2, [], some e⟩
  | .ok dur =>
    ⟨s2, [.notif "noblanket" dur timestamp,
          .wsAlert timestamp "No blanket detected" none], none⟩

/-- Blanket alert section (loop lines 283 to 353), mirroring the position one. -/
def blanket_alert_section (s : DeviceState) (timestamp : TS) (fetched : ThSnapshot) : SectionRes :=
  match check_blanket_baby s with
  | .error e => ⟨s, [], some e⟩
  | .ok false => ⟨s, [], none⟩
  | .ok true =>
    let s1 := apply_fetched_thresholds s fetched
    match check_blanket_baby s1 with
    | .error e => ⟨s1, [], some e⟩
    | .ok false => ⟨s1, [], none⟩
    | .ok true =>
      if s1.no_blanket_threshold = 0 then ⟨s1, [], none⟩
      else
        match s1.last_notification_time.get "noBlanket" with
        | none => blanket_dispatch s1 timestamp
        | some t_last =>
          match calc_time (some t_last) (some timestamp) with
          | .error e => ⟨s1, [], some e⟩
          | .ok d =>
            if 20 < d then blanket_dispatch s1 timestamp
            else ⟨s1, [], none⟩

/-- One inbound websocket frame: both fields may be missing, and a present
image may still be the empty (falsy) string. -/
structure Inbound where
  image_base64 : Option String
  timestamp : Option TS
deriving DecidableEq, Repr

/-- Python truthiness test used on the image field. -/
def strFalsy (s : Option String) : Bool :=
  match s with
  | none => true
  | some x => x == ""

/-- The analysis sub-dict of a classifier result; is_covered is absent, a
boolean, or a non-boolean value (modelled as some none). -/
structure AnalysisData where
  position : Option String
  is_covered : Option (Option Bool)
deriving DecidableEq, Repr

/-- A result of analyze_service.analyze_image_base64 as the loop reads it. -/
structure ClassifierResult where
  success : Option Bool
  analysis : Option AnalysisData
deriving DecidableEq, Repr

/-- One iteration of the main loop body over a received frame, given the
classifier result and the threshold snapshots the two alert sections would
fetch.  Returns the updated device state and the outputs in emission order;
an exception raised inside the body is caught at the loop boundary and
reported as an error event, keeping the mutations made before it. -/
def process_frame (s : DeviceState) (msg : Inbound) (analysis_result : ClassifierResult)
    (fetched1 fetched2 : ThSnapshot) : DeviceState × List Out :=
  match msg.timestamp with
  | none => (s, [.wsError "Missing image_base64 or timestamp"])
  | some timestamp =>
    if strFalsy msg.image_base64 || timestamp.falsy then
      (s, [.wsError "Missing image_base64 or timestamp"])
    else if analysis_result.success = some false then
      (s, [.wsError "Image analysis failed"])
    else
      let posture0 := (analysis_result.analysis.getD ⟨none, none⟩).position
      if posture0 = none ∨ posture0 = some "" then
        (s, [.wsError "No posture detected in the image"])
      else
        let posture := posture_map (posture0.getD "")
        if posture = "unknown" then
          (s, [.wsError "Unknown posture detected"])
        else
          let has_blanket := coerce_blanket (analysis_result.analysis.getD ⟨none, none⟩).is_covered
        -- the source reads the analysis dict without a default at this point,
        -- which is safe because a missing dict was already rejected above as
        -- missing posture; the getD fallback is therefore never taken
          let outs0 := [Out.wsAnalysis timestamp posture has_blanket]
          let ob := observe_frame s posture has_blanket timestamp
          let r1 := position_alert_section ob.1 timestamp fetched1
          match r1.err with
          | some _ =>
            (r1.state, outs0 ++ ob.2 ++ r1.outs ++ [.wsError "Error processing data"])
          | none =>
            let r2 := blanket_alert_section r1.state timestamp fetched2
            match r2.err with
            | some _ =>
              (r2.state, outs0 ++ ob.2 ++ r1.outs ++ r2.outs ++ [.wsError "Error processing data"])
            | none =>
              (r2.state, outs0 ++ ob.2 ++ r1.outs ++ r2.outs)

/-- The inputs of one loop iteration. -/
structure FrameInput where
  msg : Inbound
  result : ClassifierResult
  fetched1 : ThSnapshot
  fetched2 : ThSnapshot
deriving DecidableEq, Repr

/-- State evolution of a session over a sequence of processed frames. -/
def process_frames (s : DeviceState) (frames : List FrameInput) : DeviceState :=
  frames.foldl (fun st f => (process_frame st f.msg f.result f.fetched1 f.fetched2).1) s

/-! Frame lemmas about the state fields each operation leaves untouched. -/

@[simp] lemma update_position_baby_posture_history (s : DeviceState) (p : String) (t : TS) :
    (update_position_baby s p t).1.posture_history = s.posture_history := by
  unfold update_position_baby; split <;> rfl

@[simp] lemma update_position_baby_max_history (s : DeviceState) (p : String) (t : TS) :
    (update_position_baby s p t).1.max_history = s.max_history := by
  unfold update_position_baby; split <;> rfl

@[simp] lemma update_position_baby_blanket_baby (s : DeviceState) (p : String) (t : TS) :
    (update_position_baby s p t).1.blanket_baby = s.blanket_baby := by
  unfold update_position_baby; split <;> rfl

@[simp] lemma update_blanket_baby_posture_history (s : DeviceState) (c : Bool) (t : TS) :
    (update_blanket_baby s c t).1.posture_history = s.posture_history := by
  unfold update_blanket_baby; split <;> rfl

@[simp] lemma update_blanket_baby_max_history (s : DeviceState) (c : Bool) (t : TS) :
    (update_blanket_baby s c t).1.max_history = s.max_history := by
  unfold update_blanket_baby; split <;> rfl

@[simp] lemma update_blanket_baby_position_baby (s : DeviceState) (c : Bool) (t : TS) :
    (update_blanket_baby s c t).1.position_baby = s.position_baby := by
  unfold update_blanket_baby; split <;> rfl

@[simp] lemma observe_frame_max_history (s : DeviceState) (p : String) (b : Bool) (t : TS) :
    (observe_frame s p b t).1.max_history = s.max_history := by
  simp only [observe_frame]
  repeat' split
  all_goals simp

@[simp] lemma position_alert_section_position_baby (s : DeviceState) (ts : TS) (f : ThSnapshot) :
    (position_alert_section s ts f).state.position_baby = s.position_baby := by
  simp only [position_alert_section, position_dispatch]
  repeat' split
  all_goals rfl

@[simp] lemma position_alert_section_blanket_baby (s : DeviceState) (ts : TS) (f : ThSnapshot) :
    (position_alert_section s ts f).state.blanket_baby = s.blanket_baby := by
  simp only [position_alert_section, position_dispatch]
  repeat' split
  all_goals rfl

@[simp] lemma position_alert_section_posture_history (s : DeviceState) (ts : TS) (f : ThSnapshot) :
    (position_alert_section s ts f).state.posture_history = s.posture_history := by
  simp only [position_alert_section, position_dispatch]
  repeat' split
  all_goals rfl

@[simp] lemma position_alert_section_max_history (s : DeviceState) (ts : TS) (f : ThSnapshot) :
    (position_alert_section s ts f).state.max_history = s.max_history := by
  simp only [position_alert_section, position_dispatch]
  repeat' split
  all_goals rfl

@[simp] lemma blanket_alert_section_position_baby (s : DeviceState) (ts : TS) (f : ThSnapshot) :
    (blanket_alert_section s ts f).state.position_baby = s.position_baby := by
  simp only [blanket_alert_section, blanket_dispatch]
  repeat' split
  all_goals rfl

@[simp] lemma blanket_alert_section_blanket_baby (s : DeviceState) (ts : TS) (f : ThSnapshot) :
    (blanket_alert_section s ts f).state.blanket_baby = s.blanket_baby := by
  simp only [blanket_alert_section, blanket_dispatch]
  repeat' split
  all_goals rfl

@[simp] lemma blanket_alert_section_posture_history (s : DeviceState) (ts : TS) (f : ThSnapshot) :
    (blanket_alert_section s ts f).state.posture_history = s.posture_history := by
  simp only [blanket_alert_section, blanket_dispatch]
  repeat' split
  all_goals rfl

@[simp] lemma blanket_alert_section_max_history (s : DeviceState) (ts : TS) (f : ThSnapshot) :
    (blanket_alert_section s ts f).state.max_history = s.max_history := by
  simp only [blanket_alert_section, blanket_dispatch]
  repeat' split
  all_goals rfl

/-! Claim C5: threshold updates are frame-preserving. -/

/-- C5: a threshold update, whether through update_thresholds_from_snapshot or
through the in-loop refetch assignments, changes only the three threshold
fields (each to the snapshot value, with the respective fallback) and leaves
position_baby, blanket_baby, posture_history and last_notification_time
untouched, so an in-progress streak keeps its count and first timestamp and
the next sustained check evaluates the old run against the new thresholds. -/
theorem threshold_update_preserves_runs (s : DeviceState) (nt ft : ThSnapshot) :
    ((update_thresholds_from_snapshot s nt).position_baby = s.position_baby ∧
     (update_thresholds_from_snapshot s nt).blanket_baby = s.blanket_baby ∧
     (update_thresholds_from_snapshot s nt).posture_history = s.posture_history ∧
     (update_thresholds_from_snapshot s nt).last_notification_time = s.last_notification_time ∧
     (update_thresholds_from_snapshot s nt).max_history = s.max_history ∧
     (update_thresholds_from_snapshot s nt).side_threshold = nt.sideThreshold.getD s.side_threshold ∧
     (update_thresholds_from_snapshot s nt).prone_threshold = nt.proneThreshold.getD s.prone_threshold ∧
     (update_thresholds_from_snapshot s nt).no_blanket_threshold
       = nt.noBlanketThreshold.getD s.no_blanket_threshold) ∧
    ((apply_fetched_thresholds s ft).position_baby = s.position_baby ∧
     (apply_fetched_thresholds s ft).blanket_baby = s.blanket_baby ∧
     (apply_fetched_thresholds s ft).posture_history = s.posture_history ∧
     (apply_fetched_thresholds s ft).last_notification_time = s.last_notification_time ∧
     (apply_fetched_thresholds s ft).max_history = s.max_history ∧
     (apply_fetched_thresholds s ft).side_threshold = ft.sideThreshold.getD 10 ∧
     (apply_fetched_thresholds s ft).prone_threshold = ft.proneThreshold.getD 10 ∧
     (apply_fetched_thresholds s ft).no_blanket_threshold = ft.noBlanketThreshold.getD 100) :=
  ⟨⟨rfl, rfl, rfl, rfl, rfl, rfl, rfl, rfl⟩, rfl, rfl, rfl, rfl, rfl, rfl, rfl, rfl⟩

/-! Claim C10: Python-falsy required fields are rejected like missing ones. -/

/-- C10: an inbound message whose timestamp is the number 0, or whose image
field is the empty string, takes the same branch as a message missing the
field: the missing-field error is emitted, nothing else happens, and the
device state is unchanged. -/
theorem falsy_fields_treated_as_missing (s : DeviceState) (img : Option String)
    (tsv : Option TS) (res : ClassifierResult) (f1 f2 : ThSnapshot) :
    process_frame s ⟨some "", tsv⟩ res f1 f2
      = (s, [.wsError "Missing image_base64 or timestamp"]) ∧
    process_frame s ⟨img, some (.num 0)⟩ res f1 f2
      = (s, [.wsError "Missing image_base64 or timestamp"]) ∧
    process_frame s ⟨some "", tsv⟩ res f1 f2 = process_frame s ⟨none, tsv⟩ res f1 f2 ∧
    process_frame s ⟨img, some (.num 0)⟩ res f1 f2 = process_frame s ⟨img, none⟩ res f1 f2 := by
  refine ⟨?_, ?_, ?_, ?_⟩ <;>
    cases tsv <;>
    simp [process_frame, strFalsy, TS.falsy]

/-! Claim C1: threshold zero and the sustained checks. -/

/-- Concrete state with an active side run while side_threshold is 0. -/
def zeroSideThresholdState : DeviceState :=
  { side_threshold := 0, prone_threshold := 0, no_blanket_threshold := 0,
    max_history := 5,
    position_baby := ⟨"side", 1, some (.iso 100), some (.iso 100)⟩,
    blanket_baby := ⟨true, 0, none, none⟩,
    posture_history := [], last_notification_time := ⟨none, none, none⟩ }

/-- C1 counterexample: with side_threshold = 0 and a one-frame side run,
check_position_baby returns true, not false: the position check has no
zero-threshold guard, so the claimed threshold-zero disabling fails for it. -/
theorem check_position_baby_zero_threshold_counterexample :
    zeroSideThresholdState.side_threshold = 0 ∧
    check_position_baby zeroSideThresholdState = .ok true :=
  ⟨rfl, rfl⟩

/-- C1 amended: check_blanket_baby does return false whenever
no_blanket_threshold is 0, but check_position_baby has no zero-threshold
guard; for the position categories the zero threshold only suppresses the
dispatch inside the loop, which emits nothing when the freshly fetched
threshold of the run's label is 0. -/
theorem zero_threshold_disables_dispatch (s : DeviceState) (ts : TS) (f : ThSnapshot) :
    (s.no_blanket_threshold = 0 → check_blanket_baby s = .ok false) ∧
    (f.sideThreshold = some 0 → s.position_baby.position = "side" →
      (position_alert_section s ts f).outs = []) ∧
    (f.proneThreshold = some 0 → s.position_baby.position = "prone" →
      (position_alert_section s ts f).outs = []) := by
  refine ⟨fun h => ?_, fun hf hp => ?_, fun hf hp => ?_⟩
  · unfold check_blanket_baby
    rw [if_pos h]
  · simp only [position_alert_section, apply_fetched_thresholds, hf, hp]
    repeat' split
    all_goals simp_all [hp]
  · simp only [position_alert_section, apply_fetched_thresholds, hf, hp]
    repeat' split
    all_goals simp_all [hp]

/-- C1 amended witness: at a concrete uncovered run with the blanket threshold
0 the blanket check returns false, and with a fetched side threshold 0 the
position alert section of a sustained side run emits nothing. -/
theorem zero_threshold_disables_dispatch_witness :
    check_blanket_baby { zeroSideThresholdState with
      blanket_baby := ⟨false, 50, some (.iso 0), some (.iso 500)⟩ } = .ok false ∧
    (position_alert_section { zeroSideThresholdState with
      side_threshold := 3
      position_baby := ⟨"side", 30, some (.iso 0), some (.iso 100)⟩ }
      (.iso 200) ⟨some 0, some 9, some 100⟩).outs = [] :=
  ⟨(zero_threshold_disables_dispatch _ (.iso 0) ⟨none, none, none⟩).1 rfl,
   (zero_threshold_disables_dispatch _ (.iso 200) ⟨some 0, some 9, some 100⟩).2.1 rfl rfl⟩

/-! Claim C6: exception safety of the run updates and sustained checks. -/

/-- A stored run timestamp that datetime.fromisoformat accepts (or is unset). -/
def iso_or_none : Option TS → Bool
  | none => true
  | some (.iso _) => true
  | some _ => false

/-- calc_time returns a value, never an exception, when both stored
timestamps are ISO strings or unset. -/
lemma calc_time_ok_of_iso {a b : Option TS} (ha : iso_or_none a = true)
    (hb : iso_or_none b = true) : ∃ d, calc_time a b = .ok d := by
  cases a with
  | none => exact ⟨0, by cases b <;> rfl⟩
  | some v =>
    cases v with
    | iso x =>
      cases b with
      | none => exact ⟨0, rfl⟩
      | some w =>
        cases w with
        | iso y => exact ⟨y - x, rfl⟩
        | num n => simp [iso_or_none] at hb
        | badStr => simp [iso_or_none] at hb
        | emptyStr => simp [iso_or_none] at hb
    | num n => simp [iso_or_none] at ha
    | badStr => simp [iso_or_none] at ha
    | emptyStr => simp [iso_or_none] at ha

/-- The device state a fresh DeviceState instance starts from (thresholds as
fetched; here the side threshold is 2 seconds). -/
def freshDeviceState : DeviceState :=
  { side_threshold := 2, prone_threshold := 40, no_blanket_threshold := 100,
    max_history := 5,
    position_baby := ⟨"", 0, none, none⟩,
    blanket_baby := ⟨true, 0, none, none⟩,
    posture_history := [], last_notification_time := ⟨none, none, none⟩ }

/-- The state reached from a fresh instance by two valid observations whose
inbound timestamps are JSON numbers (0 and 5), as the external interface
permits. -/
def numericTimestampState : DeviceState :=
  (update_position_baby (update_position_baby freshDeviceState "side" (.num 0)).1
    "side" (.num 5)).1

/-- C6 counterexample: after two side observations carrying numeric
timestamps, the sustained position check raises a TypeError inside calc_time
(datetime.fromisoformat rejects non-strings) instead of completing. -/
theorem check_position_baby_numeric_timestamp_counterexample :
    check_position_baby numericTimestampState = .error "TypeError" := rfl

/-- C6 amended: the run updates never raise (they only store values), and the
sustained checks complete without an exception whenever the stored run
timestamps are ISO-format strings or unset; a stored numeric or non-ISO
timestamp makes them raise once the count guard passes. -/
theorem checks_return_without_exception_on_iso (s : DeviceState) :
    (iso_or_none s.position_baby.first_time = true →
     iso_or_none s.position_baby.last_time = true →
     ∃ b, check_position_baby s = .ok b) ∧
    (iso_or_none s.blanket_baby.first_time = true →
     iso_or_none s.blanket_baby.last_time = true →
     ∃ b, check_blanket_baby s = .ok b) := by
  constructor
  · intro hf hl
    unfold check_position_baby
    split
    · split
      · obtain ⟨d, hd⟩ := calc_time_ok_of_iso hf hl
        refine ⟨decide (s.side_threshold ≤ d), ?_⟩
        rw [hd]; rfl
      · exact ⟨false, rfl⟩
    · split
      · split
        · obtain ⟨d, hd⟩ := calc_time_ok_of_iso hf hl
          refine ⟨decide (s.prone_threshold ≤ d), ?_⟩
          rw [hd]; rfl
        · exact ⟨false, rfl⟩
      · exact ⟨false, rfl⟩
  · intro hf hl
    unfold check_blanket_baby
    split
    · exact ⟨false, rfl⟩
    · split
      · split
        · obtain ⟨d, hd⟩ := calc_time_ok_of_iso hf hl
          refine ⟨decide (s.no_blanket_threshold ≤ d), ?_⟩
          rw [hd]; rfl
        · exact ⟨false, rfl⟩
      · exact ⟨false, rfl⟩

/-- Concrete runs with ISO-string timestamps, for the C6 witness. -/
def isoTimestampState : DeviceState :=
  { freshDeviceState with
    position_baby := ⟨"side", 3, some (.iso 0), some (.iso 40)⟩
    blanket_baby := ⟨false, 3, some (.iso 0), some (.iso 40)⟩ }

/-- C6 amended witness: on a concrete state whose run timestamps are ISO
strings both sustained checks return a boolean. -/
theorem checks_return_without_exception_on_iso_witness :
    (∃ b, check_position_baby isoTimestampState = .ok b) ∧
    (∃ b, check_blanket_baby isoTimestampState = .ok b) :=
  ⟨(checks_return_without_exception_on_iso isoTimestampState).1 rfl rfl,
   (checks_return_without_exception_on_iso isoTimestampState).2 rfl rfl⟩

/-! Claim C4: both guards are needed, and together they characterize the check. -/

/-- calc_time returns 0 whenever the second timestamp is unset. -/
lemma calc_time_none_right (a : Option TS) : calc_time a none = .ok 0 := by
  cases a <;> rfl

/-- Guard characterization of one branch of a sustained check, shared by the
side, prone and blanket cases. -/
lemma check_guard_iff {T count : Int} {ft lt : Option TS} (hT : 0 < T)
    (hf : iso_or_none ft = true) (hl : iso_or_none lt = true) :
    ((if 80 * T ≤ 100 * count ∧ lt ≠ none then do
        let d ← calc_time ft lt
        pure (decide (T ≤ d))
      else (.ok false : Except String Bool)) = .ok true
     ↔ 80 * T ≤ 100 * count ∧ ∃ d, calc_time ft lt = .ok d ∧ T ≤ d) := by
  by_cases hc : 80 * T ≤ 100 * count ∧ lt ≠ none
  · rw [if_pos hc]
    obtain ⟨d, hd⟩ := calc_time_ok_of_iso hf hl
    rw [hd]
    show (Except.ok (decide (T ≤ d)) : Except String Bool) = .ok true ↔ _
    constructor
    · intro h
      refine ⟨hc.1, d, rfl, ?_⟩
      simpa using h
    · rintro ⟨-, d', hd', hTd⟩
      rw [Except.ok.injEq] at hd'
      simp only [decide_eq_true_eq, Except.ok.injEq]
      omega
  · rw [if_neg hc]
    refine iff_of_false (by simp) ?_
    rintro ⟨hA, d, hd, hTd⟩
    by_cases hlt : lt = none
    · subst hlt
      rw [calc_time_none_right, Except.ok.injEq] at hd
      omega
    · exact hc ⟨hA, hlt⟩

/-- C4: for a run whose label matches the (nonzero-threshold) category, the
sustained check returns true exactly when both the evidence-volume guard
(count at least 80 percent of the threshold, compared exactly) and the
wall-clock guard (calc_time of the run's first and last timestamps at least
the threshold) hold; a non-matching label gives false. -/
theorem sustained_check_guard_characterization (s : DeviceState) :
    (s.position_baby.position = "side" → 0 < s.side_threshold →
     iso_or_none s.position_baby.first_time = true →
     iso_or_none s.position_baby.last_time = true →
     (check_position_baby s = .ok true ↔
       80 * s.side_threshold ≤ 100 * s.position_baby.count ∧
       ∃ d, calc_time s.position_baby.first_time s.position_baby.last_time = .ok d ∧
         s.side_threshold ≤ d)) ∧
    (s.position_baby.position = "prone" → 0 < s.prone_threshold →
     iso_or_none s.position_baby.first_time = true →
     iso_or_none s.position_baby.last_time = true →
     (check_position_baby s = .ok true ↔
       80 * s.prone_threshold ≤ 100 * s.position_baby.count ∧
       ∃ d, calc_time s.position_baby.first_time s.position_baby.last_time = .ok d ∧
         s.prone_threshold ≤ d)) ∧
    (s.blanket_baby.is_covered = false → 0 < s.no_blanket_threshold →
     iso_or_none s.blanket_baby.first_time = true →
     iso_or_none s.blanket_baby.last_time = true →
     (check_blanket_baby s = .ok true ↔
       80 * s.no_blanket_threshold ≤ 100 * s.blanket_baby.count ∧
       ∃ d, calc_time s.blanket_baby.first_time s.blanket_baby.last_time = .ok d ∧
         s.no_blanket_threshold ≤ d)) ∧
    (s.position_baby.position ≠ "side" → s.position_baby.position ≠ "prone" →
      check_position_baby s = .ok false) ∧
    (s.blanket_baby.is_covered = true → check_blanket_baby s = .ok false) := by
  refine ⟨fun hp hT hf hl => ?_, fun hp hT hf hl => ?_, fun hc hT hf hl => ?_,
    fun h1 h2 => ?_, fun hc => ?_⟩
  · unfold check_position_baby
    rw [if_pos hp]
    exact check_guard_iff hT hf hl
  · unfold check_position_baby
    rw [if_neg (by simp [hp]), if_pos hp]
    exact check_guard_iff hT hf hl
  · unfold check_blanket_baby
    rw [if_neg (by omega), if_pos hc]
    exact check_guard_iff hT hf hl
  · unfold check_position_baby
    rw [if_neg h1, if_neg h2]
  · unfold check_blanket_baby
    split
    · rfl
    · rw [if_neg (by simp [hc])]

/-- Concrete sustained side run for the C4 witness. -/
def sustainedSideState : DeviceState :=
  { freshDeviceState with
    side_threshold := 5
    position_baby := ⟨"side", 30, some (.iso 0), some (.iso 100)⟩ }

/-- C4 witness: on a concrete side run with threshold 5, 30 observations and
100 elapsed seconds, both guards hold and the check returns true. -/
theorem sustained_check_guard_characterization_witness :
    check_position_baby sustainedSideState = .ok true :=
  ((sustained_check_guard_characterization sustainedSideState).1 rfl (by decide)
    rfl rfl).mpr ⟨by decide, 100, rfl, by decide⟩

/-! Claim C2: the 20-second cooldown admits at most one dispatch. -/

/-- Bind on a successful Except value applies the continuation. -/
@[simp] lemma except_ok_bind {α β : Type} (a : α) (g : α → Except String β) :
    (Except.ok a : Except String α) >>= g = g a := rfl

/-- The pure of the Except monad is Except.ok. -/
@[simp] lemma except_pure_eq_ok {α : Type} (a : α) :
    (pure a : Except String α) = .ok a := rfl

/-- calc_time on two parsed ISO timestamps is their difference in seconds. -/
@[simp] lemma calc_time_iso_iso (a b : Int) :
    calc_time (some (.iso a)) (some (.iso b)) = .ok (b - a) := rfl

/-- Reading back the key just written in last_notification_time, for the three
keys the loop uses. -/
lemma lastnotif_get_set_valid (m : LastNotif) (k : String) (v : TS)
    (hk : k = "noBlanket" ∨ k = "side" ∨ k = "prone") :
    (m.set k v).get k = some v := by
  rcases hk with h | h | h <;> subst h <;> simp [LastNotif.get, LastNotif.set]

/-- A position alert within 20 seconds of the recorded notification time for
the run's label emits nothing and keeps the notification times. -/
lemma position_cooldown_suppression {s : DeviceState} {t1 t2 : Int} (f : ThSnapshot)
    (h : s.last_notification_time.get s.position_baby.position = some (.iso t1))
    (hle : t2 - t1 ≤ 20) :
    (position_alert_section s (.iso t2) f).outs = [] ∧
    (position_alert_section s (.iso t2) f).state.last_notification_time
      = s.last_notification_time := by
  simp only [position_alert_section]
  repeat' split
  all_goals try exact ⟨rfl, rfl⟩
  all_goals exfalso
  all_goals simp_all [apply_fetched_thresholds, calc_time, fromisoformat]
  all_goals omega

/-- A blanket alert within 20 seconds of the recorded noBlanket notification
time emits nothing and keeps the notification times. -/
lemma blanket_cooldown_suppression {s : DeviceState} {t1 t2 : Int} (f : ThSnapshot)
    (h : s.last_notification_time.noBlanket = some (.iso t1))
    (hle : t2 - t1 ≤ 20) :
    (blanket_alert_section s (.iso t2) f).outs = [] ∧
    (blanket_alert_section s (.iso t2) f).state.last_notification_time
      = s.last_notification_time := by
  simp only [blanket_alert_section]
  repeat' split
  all_goals try exact ⟨rfl, rfl⟩
  all_goals exfalso
  all_goals try simp_all [apply_fetched_thresholds, LastNotif.get]
  all_goals try subst_vars
  all_goals try simp_all [calc_time, fromisoformat]
  all_goals omega

/-- When the position section emits anything, it has recorded the frame's
timestamp as the run label's last notification time. -/
lemma position_dispatch_records_time (s : DeviceState) (ts : TS) (f : ThSnapshot) :
    (position_alert_section s ts f).outs ≠ [] →
    (position_alert_section s ts f).state.last_notification_time.get s.position_baby.position
      = some ts := by
  simp only [position_alert_section, position_dispatch]
  repeat' split
  all_goals intro hne
  all_goals try exact absurd rfl hne
  all_goals simp_all [apply_fetched_thresholds, LastNotif.set, LastNotif.get]

/-- When the blanket section emits anything, it has recorded the frame's
timestamp as the noBlanket last notification time. -/
lemma blanket_dispatch_records_time (s : DeviceState) (ts : TS) (f : ThSnapshot) :
    (blanket_alert_section s ts f).outs ≠ [] →
    (blanket_alert_section s ts f).state.last_notification_time.noBlanket = some ts := by
  simp only [blanket_alert_section, blanket_dispatch]
  repeat' split
  all_goals intro hne
  all_goals try exact absurd rfl hne
  all_goals simp_all [apply_fetched_thresholds, LastNotif.set, LastNotif.get]

/-- C2: for each alert type the dispatcher records the dispatch timestamp, and
a later frame on which the sustained condition still holds emits no second
notification or alert while within 20 seconds of the recorded time, so two
sustained frames within the cooldown produce at most one dispatch. -/
theorem cooldown_gates_duplicate_alerts (s : DeviceState) (t1 t2 : Int) (f : ThSnapshot) :
    (s.last_notification_time.get s.position_baby.position = some (.iso t1) →
     t2 - t1 ≤ 20 →
     (position_alert_section s (.iso t2) f).outs = [] ∧
     (position_alert_section s (.iso t2) f).state.last_notification_time
       = s.last_notification_time) ∧
    (s.last_notification_time.noBlanket = some (.iso t1) →
     t2 - t1 ≤ 20 →
     (blanket_alert_section s (.iso t2) f).outs = [] ∧
     (blanket_alert_section s (.iso t2) f).state.last_notification_time
       = s.last_notification_time) ∧
    (∀ ts : TS, (position_alert_section s ts f).outs ≠ [] →
      (position_alert_section s ts f).state.last_notification_time.get
        s.position_baby.position = some ts) ∧
    (∀ ts : TS, (blanket_alert_section s ts f).outs ≠ [] →
      (blanket_alert_section s ts f).state.last_notification_time.noBlanket = some ts) :=
  ⟨fun h hle => position_cooldown_suppression f h hle,
   fun h hle => blanket_cooldown_suppression f h hle,
   fun ts => position_dispatch_records_time s ts f,
   fun ts => blanket_dispatch_records_time s ts f⟩

/-- A sustained side run that already notified at time 90. -/
def recentlyNotifiedState : DeviceState :=
  { freshDeviceState with
    side_threshold := 5
    position_baby := ⟨"side", 30, some (.iso 0), some (.iso 100)⟩
    last_notification_time := ⟨none, some (.iso 90), none⟩ }

/-- C2 witness: on a concrete sustained side run whose last side notification
was 10 seconds ago, the section dispatches nothing and keeps the recorded
notification time. -/
theorem cooldown_gates_duplicate_alerts_witness :
    (position_alert_section recentlyNotifiedState (.iso 100) ⟨some 5, some 5, some 100⟩).outs
      = [] ∧
    (position_alert_section recentlyNotifiedState (.iso 100)
      ⟨some 5, some 5, some 100⟩).state.last_notification_time
      = recentlyNotifiedState.last_notification_time :=
  (cooldown_gates_duplicate_alerts recentlyNotifiedState 90 100
    ⟨some 5, some 5, some 100⟩).1 rfl (by decide)

/-! Claim C9: alerts are re-checked under freshly fetched thresholds. -/

/-- Once the position check passes, the section's resulting state carries
exactly the freshly fetched thresholds. -/
lemma position_alert_section_thresholds (s : DeviceState) (ts : TS) (f : ThSnapshot)
    (h : check_position_baby s = .ok true) :
    (position_alert_section s ts f).state.side_threshold = f.sideThreshold.getD 10 ∧
    (position_alert_section s ts f).state.prone_threshold = f.proneThreshold.getD 10 ∧
    (position_alert_section s ts f).state.no_blanket_threshold = f.noBlanketThreshold.getD 100 := by
  simp only [position_alert_section, position_dispatch, h]
  repeat' split
  all_goals simp [apply_fetched_thresholds]

/-- Once the blanket check passes, the section's resulting state carries
exactly the freshly fetched thresholds. -/
lemma blanket_alert_section_thresholds (s : DeviceState) (ts : TS) (f : ThSnapshot)
    (h : check_blanket_baby s = .ok true) :
    (blanket_alert_section s ts f).state.side_threshold = f.sideThreshold.getD 10 ∧
    (blanket_alert_section s ts f).state.prone_threshold = f.proneThreshold.getD 10 ∧
    (blanket_alert_section s ts f).state.no_blanket_threshold = f.noBlanketThreshold.getD 100 := by
  simp only [blanket_alert_section, blanket_dispatch, h]
  repeat' split
  all_goals simp [apply_fetched_thresholds]

/-- The position section emits something only when the re-run check still
passes on the state carrying the freshly fetched thresholds. -/
lemma position_alert_outs_need_recheck (s : DeviceState) (ts : TS) (f : ThSnapshot) :
    (position_alert_section s ts f).outs ≠ [] →
    check_position_baby (apply_fetched_thresholds s f) = .ok true := by
  simp only [position_alert_section, position_dispatch]
  repeat' split
  all_goals intro hne
  all_goals try exact absurd rfl hne
  all_goals simp_all

/-- The blanket section emits something only when the re-run check still
passes on the state carrying the freshly fetched thresholds. -/
lemma blanket_alert_outs_need_recheck (s : DeviceState) (ts : TS) (f : ThSnapshot) :
    (blanket_alert_section s ts f).outs ≠ [] →
    check_blanket_baby (apply_fetched_thresholds s f) = .ok true := by
  simp only [blanket_alert_section, blanket_dispatch]
  repeat' split
  all_goals intro hne
  all_goals try exact absurd rfl hne
  all_goals simp_all

/-- C9: when a sustained check first passes, the section overwrites all three
thresholds with the freshly fetched values, anything is dispatched only if the
same check still passes under those fresh thresholds, and the re-check leaves
the runs and history untouched. -/
theorem alert_sections_recheck_fresh_thresholds (s : DeviceState) (ts : TS) (f : ThSnapshot) :
    ((position_alert_section s ts f).state.position_baby = s.position_baby ∧
     (position_alert_section s ts f).state.blanket_baby = s.blanket_baby ∧
     (position_alert_section s ts f).state.posture_history = s.posture_history) ∧
    (check_position_baby s = .ok true →
      (position_alert_section s ts f).state.side_threshold = f.sideThreshold.getD 10 ∧
      (position_alert_section s ts f).state.prone_threshold = f.proneThreshold.getD 10 ∧
      (position_alert_section s ts f).state.no_blanket_threshold
        = f.noBlanketThreshold.getD 100) ∧
    ((position_alert_section s ts f).outs ≠ [] →
      check_position_baby (apply_fetched_thresholds s f) = .ok true) ∧
    ((blanket_alert_section s ts f).state.position_baby = s.position_baby ∧
     (blanket_alert_section s ts f).state.blanket_baby = s.blanket_baby ∧
     (blanket_alert_section s ts f).state.posture_history = s.posture_history) ∧
    (check_blanket_baby s = .ok true →
      (blanket_alert_section s ts f).state.side_threshold = f.sideThreshold.getD 10 ∧
      (blanket_alert_section s ts f).state.prone_threshold = f.proneThreshold.getD 10 ∧
      (blanket_alert_section s ts f).state.no_blanket_threshold
        = f.noBlanketThreshold.getD 100) ∧
    ((blanket_alert_section s ts f).outs ≠ [] →
      check_blanket_baby (apply_fetched_thresholds s f) = .ok true) :=
  ⟨⟨position_alert_section_position_baby s ts f, position_alert_section_blanket_baby s ts f,
    position_alert_section_posture_history s ts f⟩,
   position_alert_section_thresholds s ts f,
   position_alert_outs_need_recheck s ts f,
   ⟨blanket_alert_section_position_baby s ts f, blanket_alert_section_blanket_baby s ts f,
    blanket_alert_section_posture_history s ts f⟩,
   blanket_alert_section_thresholds s ts f,
   blanket_alert_outs_need_recheck s ts f⟩

/-- C9 witness: on a concrete sustained side run with fetched thresholds
(7, 9, 50), the section's state carries side threshold 7, the runs are
untouched, and the emitted dispatch implies the re-check passed. -/
theorem alert_sections_recheck_fresh_thresholds_witness :
    (position_alert_section sustainedSideState (.iso 200)
      ⟨some 7, some 9, some 50⟩).state.position_baby = sustainedSideState.position_baby ∧
    (position_alert_section sustainedSideState (.iso 200)
      ⟨some 7, some 9, some 50⟩).state.side_threshold = 7 ∧
    check_position_baby (apply_fetched_thresholds sustainedSideState
      ⟨some 7, some 9, some 50⟩) = .ok true :=
  ⟨(alert_sections_recheck_fresh_thresholds sustainedSideState (.iso 200)
      ⟨some 7, some 9, some 50⟩).1.1,
   ((alert_sections_recheck_fresh_thresholds sustainedSideState (.iso 200)
      ⟨some 7, some 9, some 50⟩).2.1 rfl).1,
   (alert_sections_recheck_fresh_thresholds sustainedSideState (.iso 200)
      ⟨some 7, some 9, some 50⟩).2.2.1 (by decide)⟩

/-! Claim C3: the debounce count is the literal 3, not a fraction of max_history. -/

/-- A prone history entry at second k. -/
def proneEntry (k : Int) : HistEntry := ⟨"prone", true, .iso k⟩

/-- A side history entry at second k. -/
def sideEntry (k : Int) : HistEntry := ⟨"side", true, .iso k⟩

/-- A device configured with max_history = 10 whose full buffer holds eight
prone and two side entries, during a prone run. -/
def wideHistoryState : DeviceState :=
  { freshDeviceState with
    max_history := 10
    position_baby := ⟨"prone", 8, some (.iso 0), some (.iso 7)⟩
    posture_history := [proneEntry 0, proneEntry 1, proneEntry 2, proneEntry 3,
      proneEntry 4, proneEntry 5, proneEntry 6, proneEntry 7, sideEntry 8, sideEntry 9] }

/-- C3 counterexample: with max_history = 10 and a full buffer in which the
incoming side label reaches only 3 of 10 entries, strictly below the claimed
majority bound of 6 (the ceiling of 0.6 times max_history, computed as
(3 times max_history + 4) / 5), the label is still applied and replaces the
prone run: the code compares against the literal 3. -/
theorem debounce_majority_counterexample :
    wideHistoryState.posture_history.length = wideHistoryState.max_history ∧
    ((wideHistoryState.posture_history ++ [(⟨"side", true, .iso 10⟩ : HistEntry)]).drop 1).countP
      (fun p => p.posture == "side") = 3 ∧
    3 < (3 * wideHistoryState.max_history + 4) / 5 ∧
    (observe_frame wideHistoryState "side" true (.iso 10)).1.position_baby
      ≠ wideHistoryState.position_baby :=
  ⟨rfl, rfl, by decide, by decide⟩

/-- C3 amended: once the buffer is full, the incoming label is applied to the
position run exactly when it occurs at least 3 times (a fixed constant, which
equals the ceiling of 0.6 times max_history only at the default size 5) in
the post-eviction buffer including the new frame; below 3 the run is
unchanged, while the frame still appears in the outbound analysis message. -/
theorem debounce_applies_iff_count_three (s : DeviceState) (posture : String)
    (hb : Bool) (ts : TS) :
    (s.posture_history.length = s.max_history →
      (observe_frame s posture hb ts).1.position_baby =
        (if 3 ≤ ((s.posture_history ++ [(⟨posture, hb, ts⟩ : HistEntry)]).drop 1).countP
              (fun p => p.posture == posture)
         then (update_position_baby
            { s with posture_history := (s.posture_history ++ [(⟨posture, hb, ts⟩ : HistEntry)]).drop 1 }
            posture ts).1.position_baby
         else s.position_baby)) ∧
    (∀ (img : String) (res : ClassifierResult) (f1 f2 : ThSnapshot) (raw : String),
      img ≠ "" → ts.falsy = false → res.success ≠ some false →
      (res.analysis.getD ⟨none, none⟩).position = some raw → raw ≠ "" →
      posture_map raw ≠ "unknown" →
      Out.wsAnalysis ts (posture_map raw)
        (coerce_blanket (res.analysis.getD ⟨none, none⟩).is_covered)
        ∈ (process_frame s ⟨some img, some ts⟩ res f1 f2).2) := by
  constructor
  · intro hfull
    have e1 : (s.posture_history ++ [(⟨posture, hb, ts⟩ : HistEntry)]).length
        > s.max_history := by
      simp [hfull]
    have e2 : ¬(((s.posture_history ++ [(⟨posture, hb, ts⟩ : HistEntry)]).drop 1).length
        < s.max_history) := by
      simp [hfull]
    simp only [observe_frame, if_pos e1, if_neg e2]
    by_cases hcnt : 3 ≤ ((s.posture_history ++ [(⟨posture, hb, ts⟩ : HistEntry)]).drop 1).countP
        (fun p => p.posture == posture)
    · rw [if_pos hcnt, if_pos hcnt]
      split
      · simp
      · simp
    · rw [if_neg hcnt, if_neg hcnt]
      split
      · simp
      · simp
  · intro img res f1 f2 raw himg hts hsucc hpos hraw hmap
    simp only [process_frame]
    rw [if_neg (by simp [strFalsy, himg, hts])]
    rw [if_neg hsucc]
    rw [if_neg (by simp [hpos, hraw])]
    rw [hpos]
    rw [if_neg (show ¬posture_map ((some raw).getD "") = "unknown" by simpa using hmap)]
    split
    · simp
    · split
      · simp
      · simp

/-- C3 amended witness: on the concrete full 10-entry buffer the debounce
equation holds for an incoming side frame, and the frame's canonical label
still appears in the outbound analysis message of the processed frame. -/
theorem debounce_applies_iff_count_three_witness :
    (observe_frame wideHistoryState "side" true (.iso 10)).1.position_baby =
      (if 3 ≤ ((wideHistoryState.posture_history
            ++ [(⟨"side", true, .iso 10⟩ : HistEntry)]).drop 1).countP
            (fun p => p.posture == "side")
       then (update_position_baby
          { wideHistoryState with posture_history :=
              (wideHistoryState.posture_history
                ++ [(⟨"side", true, .iso 10⟩ : HistEntry)]).drop 1 }
          "side" (.iso 10)).1.position_baby
       else wideHistoryState.position_baby) ∧
    Out.wsAnalysis (.iso 10) "side" true
      ∈ (process_frame wideHistoryState ⟨some "img", some (.iso 10)⟩
          ⟨some true, some ⟨some "Nằm nghiêng", some (some true)⟩⟩
          ⟨none, none, none⟩ ⟨none, none, none⟩).2 :=
  ⟨(debounce_applies_iff_count_three wideHistoryState "side" true (.iso 10)).1 rfl,
   (debounce_applies_iff_count_three wideHistoryState "side" true (.iso 10)).2
     "img" ⟨some true, some ⟨some "Nằm nghiêng", some (some true)⟩⟩
     ⟨none, none, none⟩ ⟨none, none, none⟩ "Nằm nghiêng"
     (by decide) rfl (by decide) rfl (by decide) (by decide)⟩

/-! Claim C7: the raw label mapping and rejection of unmapped labels. -/

/-- C7: the three Vietnamese raw labels map to back, prone and side, every
other raw label maps to unknown, and a frame whose raw label does not map is
answered with a single error event while the device state is returned
unchanged (no history append, no run update). -/
theorem unmapped_label_rejected (s : DeviceState) :
    posture_map "Nằm ngửa" = "back" ∧
    posture_map "Nằm sấp" = "prone" ∧
    posture_map "Nằm nghiêng" = "side" ∧
    (∀ raw : String, raw ≠ "Nằm ngửa" → raw ≠ "Nằm sấp" → raw ≠ "Nằm nghiêng" →
      posture_map raw = "unknown") ∧
    (∀ (img : String) (t : TS) (res : ClassifierResult) (f1 f2 : ThSnapshot) (raw : String),
      img ≠ "" → t.falsy = false → res.success ≠ some false →
      (res.analysis.getD ⟨none, none⟩).position = some raw →
      posture_map raw = "unknown" →
      process_frame s ⟨some img, some t⟩ res f1 f2 =
        (s, [.wsError (if raw = "" then "No posture detected in the image"
              else "Unknown posture detected")])) := by
  refine ⟨rfl, rfl, rfl, fun raw h1 h2 h3 => ?_, ?_⟩
  · simp [posture_map, h1, h2, h3]
  · intro img t res f1 f2 raw himg ht hsucc hpos hmap
    simp only [process_frame]
    rw [if_neg (by simp [strFalsy, himg, ht])]
    rw [if_neg hsucc]
    by_cases hraw : raw = ""
    · rw [if_pos (by simp [hpos, hraw])]
      rw [if_pos hraw]
    · rw [if_neg (by simp [hpos, hraw])]
      rw [hpos]
      rw [if_pos (show posture_map ((some raw).getD "") = "unknown" by simpa using hmap)]
      rw [if_neg hraw]

/-- C7 witness: a frame whose classifier returned the raw label standing is
rejected with the unknown-posture error and leaves the concrete state
untouched. -/
theorem unmapped_label_rejected_witness :
    process_frame freshDeviceState ⟨some "img", some (.iso 3)⟩
      ⟨some true, some ⟨some "standing", some (some true)⟩⟩
      ⟨none, none, none⟩ ⟨none, none, none⟩
      = (freshDeviceState, [.wsError "Unknown posture detected"]) :=
  (unmapped_label_rejected freshDeviceState).2.2.2.2 "img" (.iso 3)
    ⟨some true, some ⟨some "standing", some (some true)⟩⟩
    ⟨none, none, none⟩ ⟨none, none, none⟩ "standing"
    (by decide) rfl (by decide) rfl (by decide)

/-! Claim C8: the history buffer is bounded and evicts FIFO. -/

/-- The history buffer after one observed frame: the new entry appended, and
the head dropped when that would exceed max_history. -/
lemma observe_frame_history (s : DeviceState) (p : String) (b : Bool) (ts : TS) :
    (observe_frame s p b ts).1.posture_history =
      (if (s.posture_history ++ [(⟨p, b, ts⟩ : HistEntry)]).length > s.max_history
       then (s.posture_history ++ [(⟨p, b, ts⟩ : HistEntry)]).drop 1
       else s.posture_history ++ [(⟨p, b, ts⟩ : HistEntry)]) := by
  simp only [observe_frame]
  repeat' split
  all_goals simp

/-- One observed frame keeps the history buffer within max_history. -/
lemma observe_frame_len (s : DeviceState) (p : String) (b : Bool) (ts : TS)
    (h : s.posture_history.length ≤ s.max_history) :
    (observe_frame s p b ts).1.posture_history.length ≤ s.max_history := by
  rw [observe_frame_history]
  split
  all_goals simp_all

/-- One processed frame keeps the history buffer within max_history. -/
lemma process_frame_posture_history_len (s : DeviceState) (m : Inbound)
    (r : ClassifierResult) (f1 f2 : ThSnapshot)
    (h : s.posture_history.length ≤ s.max_history) :
    (process_frame s m r f1 f2).1.posture_history.length ≤ s.max_history := by
  simp only [process_frame]
  repeat' split
  all_goals try exact h
  all_goals simp only [blanket_alert_section_posture_history,
    position_alert_section_posture_history]
  all_goals exact observe_frame_len _ _ _ _ h

/-- One processed frame never changes max_history. -/
lemma process_frame_max_history (s : DeviceState) (m : Inbound)
    (r : ClassifierResult) (f1 f2 : ThSnapshot) :
    (process_frame s m r f1 f2).1.max_history = s.max_history := by
  simp only [process_frame]
  repeat' split
  all_goals simp

/-- Processing any frame sequence keeps the history within the initial
max_history. -/
lemma process_frames_len (frames : List FrameInput) : ∀ s : DeviceState,
    s.posture_history.length ≤ s.max_history →
    (process_frames s frames).posture_history.length ≤ s.max_history := by
  induction frames with
  | nil => exact fun s h => h
  | cons f rest ih =>
    intro s h
    show (process_frames (process_frame s f.msg f.result f.fetched1 f.fetched2).1
      rest).posture_history.length ≤ s.max_history
    have hmax := process_frame_max_history s f.msg f.result f.fetched1 f.fetched2
    have hlen := process_frame_posture_history_len s f.msg f.result f.fetched1 f.fetched2 h
    have hrec := ih (process_frame s f.msg f.result f.fetched1 f.fetched2).1
      (by rw [hmax]; exact hlen)
    rw [hmax] at hrec
    exact hrec

/-- C8: starting from an empty buffer, the history length never exceeds
max_history over any processed frame sequence, and when a frame is observed
on a full buffer the oldest entry (index 0) is the one evicted. -/
theorem history_buffer_bounded (init : DeviceState) (frames : List FrameInput)
    (h0 : init.posture_history = []) :
    (process_frames init frames).posture_history.length ≤ init.max_history ∧
    (∀ (s : DeviceState) (p : String) (b : Bool) (ts : TS),
      s.posture_history.length = s.max_history →
      (observe_frame s p b ts).1.posture_history
        = (s.posture_history ++ [(⟨p, b, ts⟩ : HistEntry)]).drop 1) := by
  constructor
  · exact process_frames_len frames init (by simp [h0])
  · intro s p b ts hfull
    rw [observe_frame_history]
    rw [if_pos (by simp [hfull])]

/-- A well-formed prone frame input for the C8 witness. -/
def proneFrameInput : FrameInput :=
  ⟨⟨some "img", some (.iso 1)⟩,
   ⟨some true, some ⟨some "Nằm sấp", some (some true)⟩⟩,
   ⟨none, none, none⟩, ⟨none, none, none⟩⟩

/-- C8 witness: two processed frames from a fresh device stay within the
buffer bound, and an observation on the concrete full 10-entry buffer drops
exactly the oldest entry. -/
theorem history_buffer_bounded_witness :
    (process_frames freshDeviceState [proneFrameInput, proneFrameInput]).posture_history.length
      ≤ freshDeviceState.max_history ∧
    (observe_frame wideHistoryState "side" true (.iso 9)).1.posture_history
      = (wideHistoryState.posture_history ++ [(⟨"side", true, .iso 9⟩ : HistEntry)]).drop 1 :=
  ⟨(history_buffer_bounded freshDeviceState [proneFrameInput, proneFrameInput] rfl).1,
   (history_buffer_bounded freshDeviceState [] rfl).2 wideHistoryState "side" true
     (.iso 9) rfl⟩

end BabyMonitor
